import Mathlib

/-!
Verification of the `excel-matching` front-end (`src/frontend/app.js`).

The file shallowly embeds the two components of the client:

* the request builder (sheet-name resolution, `callMatch` lines 51-56), and
* the result renderer (the success / server-error / transport-error paths of
  `callMatch`, lines 58-96, together with `escapeHtml`, lines 15-19).

Service-supplied JSON leaves are modelled by `JVal` (a JSON scalar, plus
`undef` for an absent object field / out-of-range array index, mirroring
JavaScript member access).  Arrays and objects that the code immediately
defaults with `|| []` / destructures are modelled with `Option` at the
field level (`none` = the field is absent or `null`).
-/

/-- A JavaScript/JSON scalar value as the untyped client sees it.
`undef` models `undefined` (absent field, out-of-range index);
`null` models JSON `null`.  Numbers are modelled as integers (the
response fields interpolated by the client are integral counts). -/
inductive JVal where
  | undef
  | null
  | bool (b : Bool)
  | num (n : Int)
  | str (s : String)
deriving DecidableEq, Repr

/-- JavaScript truthiness: `undefined`, `null`, `false`, `0` and `""`
are falsy, everything else is truthy. -/
def jsTruthy : JVal → Bool
  | .undef => false
  | .null => false
  | .bool b => b
  | .num n => decide (n ≠ 0)
  | .str s => decide (s ≠ "")

/-- Template-literal / `textContent` string coercion of a JavaScript value
(`${v}`): `undefined` prints as `"undefined"`, `null` as `"null"`. -/
def jvalToString : JVal → String
  | .undef => "undefined"
  | .null => "null"
  | .bool b => if b then "true" else "false"
  | .num n => toString n
  | .str s => s

/-- JavaScript `v || d` on a value whose fallback is a string constant. -/
def jsOr (v : JVal) (d : JVal) : JVal :=
  if jsTruthy v then v else d

/-- The right-hand side of `d.textContent = s ?? ""` before serialization:
nullish values collapse to the empty string, any other value is coerced
to its string form. -/
def nullishToText : JVal → String
  | .undef => ""
  | .null => ""
  | v => jvalToString v

/-- HTML text-node escaping of a single character, as performed by the
`textContent` / `innerHTML` round trip of `escapeHtml` (app.js 15-19):
`&`, `<`, `>` and U+00A0 become entities, everything else is kept. -/
def escChar (c : Char) : List Char :=
  if c = '&' then ['&', 'a', 'm', 'p', ';']
  else if c = '<' then ['&', 'l', 't', ';']
  else if c = '>' then ['&', 'g', 't', ';']
  else if c = '\u00A0' then ['&', 'n', 'b', 's', 'p', ';']
  else [c]

/-- Character-list level text-node serialization. -/
def escText : List Char → List Char
  | [] => []
  | c :: cs => escChar c ++ escText cs

/-- `escapeHtml` from app.js lines 15-19:
`const d = document.createElement("div"); d.textContent = s ?? ""; return d.innerHTML;`
— nullish input collapses to `""`, then the text node is serialized with
`&`, `<`, `>`, U+00A0 replaced by entities. -/
def escapeHtml (v : JVal) : String :=
  ⟨escText (nullishToText v).data⟩

/-- Inverse of the text-node serialization, used to state the round-trip
property of `escapeHtml` (escaped output still denotes the original text). -/
def unescText : List Char → List Char
  | '&' :: 'a' :: 'm' :: 'p' :: ';' :: r => '&' :: unescText r
  | '&' :: 'l' :: 't' :: ';' :: r => '<' :: unescText r
  | '&' :: 'g' :: 't' :: ';' :: r => '>' :: unescText r
  | '&' :: 'n' :: 'b' :: 's' :: 'p' :: ';' :: r => '\u00A0' :: unescText r
  | c :: cs => c :: unescText cs
  | [] => []

/-- One entry of the `mismatches` array of a `RowResult`. -/
structure MismatchData where
  column_label : JVal
  esg_value : JVal
  tax_value : JVal
deriving DecidableEq, Repr

/-- One entry of the `results` array (a `RowResult`).  Array-valued fields
are `Option` (`none` = absent or `null`, the values the code defaults with
`|| []` / guards with `&&`). -/
structure RowResultData where
  row : JVal
  all_match : Option Bool
  values_esg : Option (List JVal)
  values_tax : Option (List JVal)
  cells_match : Option (List Bool)
  mismatches : Option (List MismatchData)
deriving DecidableEq, Repr

/-- The `summary` object of a successful response. -/
structure SummaryData where
  total_rows : JVal
  all_match : JVal
  has_mismatch : JVal
deriving DecidableEq, Repr

/-- The parsed response body (`data` in `callMatch`); every field may be
absent.  An unparseable body (`res.json().catch(() => ({}))`) is the
all-`none` value of this structure. -/
structure RespData where
  detail : JVal
  column_labels : Option (List JVal)
  match_key_label : JVal
  summary : Option SummaryData
  results : Option (List RowResultData)
deriving DecidableEq, Repr

/-- `const ok = r.cells_match && r.cells_match[i];` (app.js line 80) as a
truth value: falsy when `cells_match` is absent or the index is out of
range, otherwise the boolean entry. -/
def okOf (cm : Option (List Bool)) (i : Nat) : Bool :=
  match cm with
  | none => false
  | some l => l.getD i false

/-- `const tv = r.values_tax && r.values_tax[i] !== undefined ? r.values_tax[i] : "";`
(app.js line 81): `""` when `values_tax` is absent or the index is out of
range, otherwise the entry itself (a `null` entry stays `null`). -/
def tvOf (vt : Option (List JVal)) (i : Nat) : JVal :=
  match vt with
  | none => .str ""
  | some l => if l.getD i .undef ≠ .undef then l.getD i .undef else .str ""

/-- `const title = !ok ? `ESG: ${v} | ภาษี: ${tv}` : "";` (app.js line 82). -/
def titleOf (r : RowResultData) (v : JVal) (i : Nat) : String :=
  if !(okOf r.cells_match i) then
    "ESG: " ++ jvalToString v ++ " | ภาษี: " ++ jvalToString (tvOf r.values_tax i)
  else ""

/-- The cell class `${ok ? "cell-ok" : "cell-warn"}` (app.js line 83). -/
def cellClassOf (r : RowResultData) (i : Nat) : String :=
  if okOf r.cells_match i then "cell-ok" else "cell-warn"

/-- The optional tooltip attribute `${title ? ` title="${escapeHtml(title)}"` : ""}`
(app.js line 83). -/
def titleAttrOf (r : RowResultData) (v : JVal) (i : Nat) : String :=
  if titleOf r v i ≠ "" then " title=\"" ++ escapeHtml (.str (titleOf r v i)) ++ "\""
  else ""

/-- One rendered data cell (the body of the `.map((v, i) => ...)` callback,
app.js lines 79-84). -/
def renderCell (r : RowResultData) (v : JVal) (i : Nat) : String :=
  "<td class=\"" ++ cellClassOf r i ++ "\"" ++ titleAttrOf r v i ++ ">"
    ++ escapeHtml v ++ "</td>"

/-- The list of rendered data cells of a row:
`(r.values_esg || []).map((v, i) => ...)` (app.js line 79). -/
def cellsOf (r : RowResultData) : List String :=
  (r.values_esg.getD []).enum.map (fun p => renderCell r p.2 p.1)

/-- One formatted mismatch entry (the `.map((m) => ...)` body, app.js line 86). -/
def renderMismatch (m : MismatchData) : String :=
  "<span class=\"mismatch-label\">" ++ escapeHtml m.column_label
    ++ "</span>: ESG=<strong>" ++ escapeHtml (jsOr m.esg_value (.str "(ว่าง)"))
    ++ "</strong> ภาษี=<strong>" ++ escapeHtml (jsOr m.tax_value (.str "(ว่าง)"))
    ++ "</strong>"

/-- The mismatch summary cell content (app.js lines 85-87):
a dash when `mismatches` is absent or empty, otherwise the formatted
entries joined with `" · "`. -/
def mismatchCellOf (ms : Option (List MismatchData)) : String :=
  if (ms.getD []).length ≠ 0 then
    String.intercalate " · " ((ms.getD []).map renderMismatch)
  else "—"

/-- The row class `r.all_match ? "row-ok" : "row-warn"` (app.js line 78). -/
def rowClassOf (r : RowResultData) : String :=
  if r.all_match.getD false then "row-ok" else "row-warn"

/-- One rendered body row (the `.map((r) => ...)` body, app.js lines 77-88). -/
def renderRow (r : RowResultData) : String :=
  "<tr class=\"" ++ rowClassOf r ++ "\"><td>" ++ jvalToString r.row ++ "</td>"
    ++ String.join (cellsOf r)
    ++ "<td class=\"mismatch-cell\">" ++ mismatchCellOf r.mismatches ++ "</td></tr>"

/-- `resultBody.innerHTML = (results || []).map((r) => ...).join("")` (app.js 77-88). -/
def renderBody (rs : Option (List RowResultData)) : String :=
  String.join ((rs.getD []).map renderRow)

/-- `resultThead.innerHTML = "<th>ลำดับ</th>" + (column_labels || []).map(...).join("") + "<th>ข้อมูลที่ไม่ตรง</th>"`
(app.js line 76). -/
def renderThead (cl : Option (List JVal)) : String :=
  "<th>ลำดับ</th>"
    ++ String.join ((cl.getD []).map (fun x => "<th>" ++ escapeHtml x ++ "</th>"))
    ++ "<th>ข้อมูลที่ไม่ตรง</th>"

/-- The summary element markup (app.js lines 71-74); the three counts are
interpolated raw, the key label goes through `escapeHtml` with default
`"เลขถัง"`. -/
def renderSummary (sm : SummaryData) (mkl : JVal) : String :=
  "\n      <p>รวมแถว: <strong>" ++ jvalToString sm.total_rows
    ++ "</strong> · ตรงทุกคอลัมน์ (แถวเขียว): <strong class=\"ok\">"
    ++ jvalToString sm.all_match
    ++ "</strong> · มีคอลัมน์ไม่ตรง (แถวเหลือง): <strong class=\"warn\">"
    ++ jvalToString sm.has_mismatch
    ++ "</strong></p>\n      <p class=\"hint\">เงื่อนไขจับคู่แถว: <strong>"
    ++ escapeHtml (jsOr mkl (.str "เลขถัง"))
    ++ "</strong> เป็นตัวหลัก</p>\n    "

/-- The DOM state `callMatch` reads and writes: the status element, the
three result containers, the result section's visibility and the trigger
control's disabled flag. -/
structure DisplayState where
  statusClass : String
  statusText : String
  summaryHtml : String
  theadHtml : String
  bodyHtml : String
  resultHidden : Bool
  btnDisabled : Bool
deriving DecidableEq, Repr

/-- Terminal outcome of the `fetch`: either the request itself threw
(network failure), or a response arrived with success flag `res.ok` and a
parsed body (an unparseable body parses to the all-absent `RespData`). -/
inductive FetchOutcome where
  | transportFail
  | response (ok : Bool) (data : RespData)
deriving DecidableEq, Repr

/-- Generic server-error status text (app.js line 62). -/
def genericErrorText : String := "เกิดข้อผิดพลาด"

/-- Generic connectivity status text of the catch block (app.js line 92). -/
def connectErrorText : String := "เชื่อมต่อ API ไม่ได้"

/-- The terminal `DisplayState` produced by `callMatch` (app.js lines 58-96)
from the state before the action and the fetch outcome.

* transport failure: the catch block sets only the status; `finally`
  re-enables the trigger control;
* `!res.ok`: status shows `data.detail || generic` and the handler returns
  early, before any result element is touched;
* `res.ok` with `summary` absent or `null`: evaluating
  `${summary.total_rows}` inside the template literal throws a `TypeError`
  before `summaryEl.innerHTML` is assigned; the catch block turns this into
  the generic connectivity status, all result elements keep their prior
  values;
* `res.ok` with `summary` an object: summary, header and body are rebuilt
  and the result section is revealed. -/
def callMatch (prior : DisplayState) (o : FetchOutcome) : DisplayState :=
  match o with
  | .transportFail =>
    { prior with statusClass := "status error", statusText := connectErrorText,
                 btnDisabled := false }
  | .response ok data =>
    if !ok then
      { prior with statusClass := "status error",
                   statusText := jvalToString (jsOr data.detail (.str genericErrorText)),
                   btnDisabled := false }
    else
      match data.summary with
      | none =>
        { prior with statusClass := "status error", statusText := connectErrorText,
                     btnDisabled := false }
      | some sm =>
        { statusClass := "status success", statusText := "เทียบข้อมูลเสร็จแล้ว",
          summaryHtml := renderSummary sm data.match_key_label,
          theadHtml := renderThead data.column_labels,
          bodyHtml := renderBody data.results,
          resultHidden := false,
          btnDisabled := false }

/-- JavaScript whitespace for `String.prototype.trim` (the ASCII white
space characters plus NBSP and the BOM; further Unicode space separators
are not needed by any claim). -/
def isJsSpace (c : Char) : Bool :=
  c = ' ' || c = '\t' || c = '\n' || c = '\r' || c = '\x0b' || c = '\x0c'
    || c = '\u00A0' || c = '\uFEFF'

/-- `s.trim()` on the character list: strip leading and trailing whitespace. -/
def jsTrim (s : String) : String :=
  ⟨((s.data.dropWhile isJsSpace).reverse.dropWhile isJsSpace).reverse⟩

/-- `const sheetName = (sheetNameInput.value || "ตารางไมวัน").trim();`
(app.js line 51): the default replaces the raw input only when the raw
input is the empty string; trimming happens afterwards. -/
def resolvedSheetName (input : String) : String :=
  jsTrim (if input = "" then "ตารางไมวัน" else input)

/-- Modelled from the spec (§4.2 sheet-name resolution), for comparison
with `resolvedSheetName`: "trim the override; if empty after trimming,
substitute the fixed default sheet name." -/
def specSheetName (input : String) : String :=
  if jsTrim input = "" then "ตารางไมวัน" else jsTrim input

/-! ### Lemmas about the escaping function -/

set_option maxHeartbeats 1000000 in
lemma unescText_cons_ne (c : Char) (t : List Char) (h : c ≠ '&') :
    unescText (c :: t) = c :: unescText t := by
  rw [unescText.eq_def]
  split
  · rename_i r heq; cases heq; exact absurd rfl h
  · rename_i r heq; cases heq; exact absurd rfl h
  · rename_i r heq; cases heq; exact absurd rfl h
  · rename_i r heq; cases heq; exact absurd rfl h
  · rename_i heq; cases heq; rfl
  · rename_i heq; simp at heq

lemma escChar_not_amp (c : Char) (h1 : c ≠ '&') (h2 : c ≠ '<') (h3 : c ≠ '>')
    (h4 : c ≠ ' ') : escChar c = [c] := by
  simp [escChar, h1, h2, h3, h4]

lemma unesc_escText (l : List Char) : unescText (escText l) = l := by
  induction l with
  | nil => rfl
  | cons c cs ih =>
    show unescText (escChar c ++ escText cs) = c :: cs
    by_cases h1 : c = '&'
    · subst h1
      show unescText ('&' :: 'a' :: 'm' :: 'p' :: ';' :: escText cs) = '&' :: cs
      rw [show ∀ t, unescText ('&' :: 'a' :: 'm' :: 'p' :: ';' :: t)
            = '&' :: unescText t from fun _ => rfl, ih]
    by_cases h2 : c = '<'
    · subst h2
      show unescText ('&' :: 'l' :: 't' :: ';' :: escText cs) = '<' :: cs
      rw [show ∀ t, unescText ('&' :: 'l' :: 't' :: ';' :: t)
            = '<' :: unescText t from fun _ => rfl, ih]
    by_cases h3 : c = '>'
    · subst h3
      show unescText ('&' :: 'g' :: 't' :: ';' :: escText cs) = '>' :: cs
      rw [show ∀ t, unescText ('&' :: 'g' :: 't' :: ';' :: t)
            = '>' :: unescText t from fun _ => rfl, ih]
    by_cases h4 : c = ' '
    · subst h4
      show unescText ('&' :: 'n' :: 'b' :: 's' :: 'p' :: ';' :: escText cs)
            = ' ' :: cs
      rw [show ∀ t, unescText ('&' :: 'n' :: 'b' :: 's' :: 'p' :: ';' :: t)
            = ' ' :: unescText t from fun _ => rfl, ih]
    rw [escChar_not_amp c h1 h2 h3 h4]
    show unescText (c :: escText cs) = c :: cs
    rw [unescText_cons_ne c _ h1, ih]

lemma escChar_no_angle (c x : Char) (hx : x ∈ escChar c) : x ≠ '<' ∧ x ≠ '>' := by
  unfold escChar at hx
  split_ifs at hx with h1 h2 h3 h4 <;> simp only [List.mem_cons, List.mem_singleton,
    List.not_mem_nil, or_false] at hx
  · rcases hx with h | h | h | h | h <;> subst h <;> exact ⟨by decide, by decide⟩
  · rcases hx with h | h | h | h <;> subst h <;> exact ⟨by decide, by decide⟩
  · rcases hx with h | h | h | h <;> subst h <;> exact ⟨by decide, by decide⟩
  · rcases hx with h | h | h | h | h | h <;> subst h <;> exact ⟨by decide, by decide⟩
  · subst hx; exact ⟨h2, h3⟩

lemma escText_no_angle (l : List Char) : '<' ∉ escText l ∧ '>' ∉ escText l := by
  induction l with
  | nil => exact ⟨by simp [escText], by simp [escText]⟩
  | cons c cs ih =>
    show '<' ∉ escChar c ++ escText cs ∧ '>' ∉ escChar c ++ escText cs
    constructor <;> intro hmem <;> rcases List.mem_append.mp hmem with h | h
    · exact (escChar_no_angle c '<' h).1 rfl
    · exact ih.1 h
    · exact (escChar_no_angle c '>' h).2 rfl
    · exact ih.2 h

/-! ### Substring-occurrence and character-count helpers -/

/-- `startsList s p`: the list `p` is an initial segment of `s`. -/
def startsList : List Char → List Char → Bool
  | _, [] => true
  | [], _ :: _ => false
  | c :: cs, p :: ps => c == p && startsList cs ps

/-- `hasSub p s`: the list `p` occurs contiguously inside `s`. -/
def hasSub (p : List Char) : List Char → Bool
  | [] => startsList [] p
  | c :: t => startsList (c :: t) p || hasSub p t

/-- `pat` occurs as a contiguous substring of `s`. -/
def strContains (s pat : String) : Bool := hasSub pat.data s.data

lemma startsList_append (a b p : List Char) (h : startsList a p = true) :
    startsList (a ++ b) p = true := by
  induction a generalizing p with
  | nil =>
    cases p with
    | nil => cases b <;> rfl
    | cons q qs => simp [startsList] at h
  | cons c cs ih =>
    cases p with
    | nil => rfl
    | cons q qs =>
      simp only [startsList, Bool.and_eq_true] at h
      simp only [List.cons_append, startsList, Bool.and_eq_true]
      exact ⟨h.1, ih qs h.2⟩

lemma hasSub_nil (l : List Char) : hasSub [] l = true := by
  cases l with
  | nil => rfl
  | cons c t => simp [hasSub, startsList]

lemma hasSub_append_left (p a b : List Char) (h : hasSub p a = true) :
    hasSub p (a ++ b) = true := by
  induction a with
  | nil =>
    cases p with
    | nil => exact hasSub_nil b
    | cons q qs => simp [hasSub, startsList] at h
  | cons c t ih =>
    simp only [hasSub, Bool.or_eq_true] at h
    simp only [List.cons_append, hasSub, Bool.or_eq_true]
    rcases h with h | h
    · exact Or.inl (startsList_append _ _ _ h)
    · exact Or.inr (ih h)

lemma strContains_append_left (a b pat : String) (h : strContains a pat = true) :
    strContains (a ++ b) pat = true := by
  simp only [strContains, String.data_append]
  exact hasSub_append_left _ _ _ h

/-- Number of occurrences of character `c` in `s`. -/
def countChar (c : Char) (s : String) : Nat := s.data.count c

lemma countChar_append (c : Char) (a b : String) :
    countChar c (a ++ b) = countChar c a + countChar c b := by
  simp [countChar, String.data_append]

lemma escapeHtml_count_lt (v : JVal) : countChar '<' (escapeHtml v) = 0 :=
  List.count_eq_zero.mpr (escText_no_angle (nullishToText v).data).1

lemma escapeHtml_count_gt (v : JVal) : countChar '>' (escapeHtml v) = 0 :=
  List.count_eq_zero.mpr (escText_no_angle (nullishToText v).data).2

example : strContains "abcd" "bc" = true := by decide
example : strContains "abcd" "bd" = false := by decide
example : countChar '<' "<a><b>" = 2 := by decide

example : resolvedSheetName "" = "ตารางไมวัน" := by decide
example : resolvedSheetName " x " = "x" := by decide
example : resolvedSheetName " " = "" := by decide
example : specSheetName " " = "ตารางไมวัน" := by decide
example : escapeHtml (.str "<b>&\"") = "&lt;b&gt;&amp;\"" := by decide
example : escapeHtml .null = "" := by decide
example : tvOf (some [JVal.null]) 0 = JVal.null := by decide
example : tvOf (some []) 0 = JVal.str "" := by decide

/-! ### Concrete fixtures used by counterexamples and witnesses -/

/-- A display state with a previously rendered result, used as the state
before a retried action. -/
def priorState : DisplayState :=
  { statusClass := "status success", statusText := "เทียบข้อมูลเสร็จแล้ว",
    summaryHtml := "<p>old summary</p>", theadHtml := "<th>old</th>",
    bodyHtml := "<tr>old</tr>", resultHidden := false, btnDisabled := true }

/-- The all-absent response body (what an unparseable body parses to). -/
def emptyResp : RespData :=
  { detail := .undef, column_labels := none, match_key_label := .undef,
    summary := none, results := none }

/-- A fully matching example row. -/
def rowOkEx : RowResultData :=
  { row := .num 1, all_match := some true, values_esg := some [.str "x"],
    values_tax := some [.str "x"], cells_match := some [true], mismatches := some [] }

/-- An example summary object. -/
def smEx : SummaryData := { total_rows := .num 2, all_match := .num 1, has_mismatch := .num 1 }

/-- An HTTP-success body whose `summary` field is absent. -/
def respNoSummary : RespData :=
  { detail := .undef, column_labels := some [.str "A"],
    match_key_label := .str "ID", summary := none, results := some [rowOkEx] }

/-! ### Claims about the request builder -/

/-- Claim C1 (code-bug evidence): the builder computes
`(sheetNameInput.value || "ตารางไมวัน").trim()` — the default is
substituted *before* trimming, only against the exactly-empty string —
so the whitespace-only input `" "` survives the default check and the
request is built with the blank sheet name `""`.  The spec-modelled
resolution (`specSheetName`: trim first, then default) yields the fixed
default instead. -/
theorem sheetName_whitespace_sent_blank :
    resolvedSheetName " " = "" ∧ specSheetName " " = "ตารางไมวัน" :=
  ⟨by decide, by decide⟩

/-! ### Claims about the escaping function -/

/-- Claim C9: `escapeHtml` is total over absent input — `null` and
`undefined` collapse to the empty string, never to the texts `"null"` or
`"undefined"` — and for every string it replaces the markup-significant
characters by entities: its output contains no raw `<` or `>`, and
decoding the entities (`unescText`) recovers the original string exactly.
(Totality itself is inherent: `escapeHtml` is a total function.) -/
theorem escapeHtml_total_and_escapes :
    (escapeHtml JVal.null = "" ∧ escapeHtml JVal.undef = "")
    ∧ ∀ s : String,
        '<' ∉ (escapeHtml (JVal.str s)).data
        ∧ '>' ∉ (escapeHtml (JVal.str s)).data
        ∧ unescText (escapeHtml (JVal.str s)).data = s.data :=
  ⟨⟨by decide, by decide⟩, fun s =>
    ⟨(escText_no_angle s.data).1, (escText_no_angle s.data).2, unesc_escText s.data⟩⟩

/-! ### Claims about the error paths of the renderer -/

/-- Claim C4: on every error outcome — thrown transport failure or
non-success HTTP status — `callMatch` leaves the summary element, the
header row, the body rows and the result section's visibility at their
prior values and re-enables the action control; only the status element
changes. -/
theorem error_paths_preserve_display (prior : DisplayState) (data : RespData) :
    ((callMatch prior .transportFail).summaryHtml = prior.summaryHtml
      ∧ (callMatch prior .transportFail).theadHtml = prior.theadHtml
      ∧ (callMatch prior .transportFail).bodyHtml = prior.bodyHtml
      ∧ (callMatch prior .transportFail).resultHidden = prior.resultHidden
      ∧ (callMatch prior .transportFail).btnDisabled = false)
    ∧ ((callMatch prior (.response false data)).summaryHtml = prior.summaryHtml
      ∧ (callMatch prior (.response false data)).theadHtml = prior.theadHtml
      ∧ (callMatch prior (.response false data)).bodyHtml = prior.bodyHtml
      ∧ (callMatch prior (.response false data)).resultHidden = prior.resultHidden
      ∧ (callMatch prior (.response false data)).btnDisabled = false) :=
  ⟨⟨rfl, rfl, rfl, rfl, rfl⟩, ⟨rfl, rfl, rfl, rfl, rfl⟩⟩

/-- Claim C8 (counterexample): for the error payload `{"detail": ""}` the
`detail` field *is present*, yet the status element shows the generic
error text rather than the supplied detail — `data.detail || generic`
tests truthiness, not presence. -/
theorem empty_detail_shows_generic :
    (callMatch priorState
        (.response false { emptyResp with detail := JVal.str "" })).statusText
      = genericErrorText
    ∧ genericErrorText ≠ "" :=
  ⟨rfl, by decide⟩

/-- Claim C8 (amended): on a non-success HTTP status the status element
shows the `detail` field when it is present *and non-empty* (truthy), and
the generic error text otherwise (absent, `null`, or the empty string);
on a thrown transport failure it shows the generic connectivity
message. -/
theorem status_error_messages (prior : DisplayState) (data : RespData) (s : String)
    (hs : s ≠ "") :
    (callMatch prior
        (.response false { data with detail := JVal.str s })).statusText = s
    ∧ ((data.detail = JVal.undef ∨ data.detail = JVal.null ∨ data.detail = JVal.str "") →
        (callMatch prior (.response false data)).statusText = genericErrorText)
    ∧ (callMatch prior .transportFail).statusText = connectErrorText := by
  refine ⟨?_, ?_, rfl⟩
  · simp [callMatch, jsOr, jsTruthy, jvalToString, hs]
  · intro hd
    rcases hd with hd | hd | hd <;>
      simp [callMatch, jsOr, jsTruthy, jvalToString, hd]

/-- Witness for `status_error_messages` at concrete inputs. -/
theorem status_error_messages_w :
    (callMatch priorState
        (.response false { emptyResp with detail := JVal.str "bad file" })).statusText
      = "bad file"
    ∧ (callMatch priorState (.response false emptyResp)).statusText = genericErrorText
    ∧ (callMatch priorState .transportFail).statusText = connectErrorText := by
  have h := status_error_messages priorState emptyResp "bad file" (by decide)
  exact ⟨h.1, h.2.1 (Or.inl rfl), h.2.2⟩

/-- Claim C2 (counterexample): an HTTP-success response carrying `results`
and `column_labels` but no `summary` does not yield a successful display
state: dereferencing `summary.total_rows` throws, the status ends in the
error class with the generic connectivity text, and the previously
rendered display is left as it was. -/
theorem missing_summary_error_state :
    (callMatch priorState (.response true respNoSummary)).statusClass = "status error"
    ∧ (callMatch priorState (.response true respNoSummary)).statusText = connectErrorText
    ∧ (callMatch priorState (.response true respNoSummary)).bodyHtml = priorState.bodyHtml
    ∧ (callMatch priorState (.response true respNoSummary)).resultHidden
        = priorState.resultHidden :=
  ⟨rfl, rfl, rfl, rfl⟩

/-- Claim C2 (amended): in an HTTP-success response, missing `results` or
`column_labels` are defaulted to empty sequences and a successful display
state is still produced — provided `summary` is present; a missing
`summary` instead aborts rendering at `summary.total_rows`, landing in
the error state with the generic connectivity message and leaving all
prior display state untouched. -/
theorem defensive_defaults_results_labels (prior : DisplayState) (sm : SummaryData)
    (mkl d : JVal) (data : RespData) (hsum : data.summary = none) :
    callMatch prior (.response true
        { detail := d, column_labels := none, match_key_label := mkl,
          summary := some sm, results := none })
      = { statusClass := "status success", statusText := "เทียบข้อมูลเสร็จแล้ว",
          summaryHtml := renderSummary sm mkl,
          theadHtml := "<th>ลำดับ</th><th>ข้อมูลที่ไม่ตรง</th>",
          bodyHtml := "", resultHidden := false, btnDisabled := false }
    ∧ callMatch prior (.response true data)
      = { prior with statusClass := "status error", statusText := connectErrorText,
                     btnDisabled := false } := by
  constructor
  · rfl
  · rcases data with ⟨d2, cl2, mkl2, sm2, rs2⟩
    have h2 : sm2 = none := hsum
    subst h2
    rfl

/-- Witness for `defensive_defaults_results_labels` at concrete inputs. -/
theorem defensive_defaults_results_labels_w :
    callMatch priorState (.response true
        { detail := JVal.undef, column_labels := none, match_key_label := JVal.str "ID",
          summary := some smEx, results := none })
      = { statusClass := "status success", statusText := "เทียบข้อมูลเสร็จแล้ว",
          summaryHtml := renderSummary smEx (JVal.str "ID"),
          theadHtml := "<th>ลำดับ</th><th>ข้อมูลที่ไม่ตรง</th>",
          bodyHtml := "", resultHidden := false, btnDisabled := false }
    ∧ callMatch priorState (.response true respNoSummary)
      = { priorState with statusClass := "status error", statusText := connectErrorText,
                          btnDisabled := false } :=
  defensive_defaults_results_labels priorState smEx (JVal.str "ID") JVal.undef
    respNoSummary rfl

/-! ### Claims about row and cell rendering -/

lemma empty_data : ("" : String).data = [] := rfl

lemma title_ne_empty (r : RowResultData) (v : JVal) (i : Nat)
    (hok : okOf r.cells_match i = false) : titleOf r v i ≠ "" := by
  unfold titleOf
  rw [hok]
  simp only [Bool.not_false, if_true]
  intro h
  have h2 := congrArg String.data h
  simp only [String.data_append, empty_data] at h2
  rcases List.append_eq_nil.mp h2 with ⟨h3, _⟩
  rcases List.append_eq_nil.mp h3 with ⟨h4, _⟩
  rcases List.append_eq_nil.mp h4 with ⟨h5, _⟩
  exact absurd h5 (by decide)

lemma getD_take_of_lt {α : Type} (l : List α) (d : α) {i n : Nat} (h : i < n) :
    (l.take n).getD i d = l.getD i d := by
  simp [List.getD, List.getElem?_take_of_lt h]

/-- A row whose single cell mismatches and whose tax value at that
position is JSON `null`. -/
def rowNullTax : RowResultData :=
  { row := .num 2, all_match := some false, values_esg := some [.str "x"],
    values_tax := some [JVal.null], cells_match := some [false],
    mismatches := some [] }

/-- A mismatching row with `values_tax` and `cells_match` absent. -/
def rowNoTax : RowResultData :=
  { row := .num 3, all_match := some false, values_esg := some [.str "x"],
    values_tax := none, cells_match := none, mismatches := none }

/-- Claim C5 (counterexample): a `null` entry of `values_tax` at a
mismatched position is rendered in the tooltip as the text `null`
(`values_tax[i] !== undefined` lets `null` through, and the template
literal prints it), not as the empty string the claim requires. -/
theorem null_tax_tooltip_null :
    renderCell rowNullTax (JVal.str "x") 0
      = "<td class=\"cell-warn\" title=\"ESG: x | ภาษี: null\">x</td>"
    ∧ renderCell rowNullTax (JVal.str "x") 0
      ≠ "<td class=\"cell-warn\" title=\"ESG: x | ภาษี: \">x</td>" :=
  ⟨by decide, by decide⟩

/-- Claim C5 (amended): in the tooltip of a mismatched cell, an absent
`values_tax` sequence — or an index beyond its length — renders the tax
value as the empty string (never `undefined`); but a JSON `null` entry at
that position renders as the text `null`. -/
theorem tooltip_missing_tax_empty (r : RowResultData) (v : JVal) (i : Nat)
    (hok : okOf r.cells_match i = false) :
    (r.values_tax = none →
        titleOf r v i = "ESG: " ++ jvalToString v ++ " | ภาษี: ")
    ∧ (∀ l, r.values_tax = some l → l.length ≤ i →
        titleOf r v i = "ESG: " ++ jvalToString v ++ " | ภาษี: ")
    ∧ (∀ l, r.values_tax = some l → l.getD i JVal.undef = JVal.null →
        titleOf r v i = "ESG: " ++ jvalToString v ++ " | ภาษี: " ++ "null") := by
  refine ⟨?_, ?_, ?_⟩
  · intro hvt
    simp [titleOf, hok, tvOf, hvt, jvalToString]
  · intro l hvt hlen
    have hget : l[i]?.getD JVal.undef = JVal.undef := by
      rw [List.getElem?_eq_none hlen]; rfl
    simp [titleOf, hok, tvOf, hvt, hget, jvalToString]
  · intro l hvt hnull
    have hget : l[i]?.getD JVal.undef = JVal.null := by
      rw [List.getD_eq_getElem?_getD] at hnull; exact hnull
    simp [titleOf, hok, tvOf, hvt, hget, jvalToString]

/-- Witness for `tooltip_missing_tax_empty` at concrete inputs. -/
theorem tooltip_missing_tax_empty_w :
    titleOf rowNoTax (JVal.str "x") 0
      = "ESG: " ++ jvalToString (JVal.str "x") ++ " | ภาษี: "
    ∧ titleOf rowNullTax (JVal.str "x") 0
      = "ESG: " ++ jvalToString (JVal.str "x") ++ " | ภาษี: " ++ "null" := by
  have h1 := tooltip_missing_tax_empty rowNoTax (JVal.str "x") 0 (by decide)
  have h2 := tooltip_missing_tax_empty rowNullTax (JVal.str "x") 0 (by decide)
  exact ⟨h1.1 rfl, h2.2.2 [JVal.null] rfl (by decide)⟩

/-- Claim C6: the row container is classed `row-ok` when `all_match` is
true and `row-warn` otherwise; cell `i` is classed `cell-ok` when
`cells_match[i]` is true and `cell-warn` otherwise, and a mismatched cell
carries a tooltip attribute showing both the ESG and the tax value; the
classification is a pure function of its inputs (equal inputs give equal
renderings). -/
theorem row_cell_classification (r : RowResultData) (v : JVal) (i : Nat) :
    (r.all_match = some true →
        strContains (renderRow r) "<tr class=\"row-ok\">" = true)
    ∧ (r.all_match.getD false = false →
        strContains (renderRow r) "<tr class=\"row-warn\">" = true)
    ∧ (okOf r.cells_match i = true →
        renderCell r v i = "<td class=\"cell-ok\">" ++ escapeHtml v ++ "</td>")
    ∧ (okOf r.cells_match i = false →
        cellClassOf r i = "cell-warn"
        ∧ titleOf r v i
            = "ESG: " ++ jvalToString v ++ " | ภาษี: "
                ++ jvalToString (tvOf r.values_tax i)
        ∧ renderCell r v i
            = "<td class=\"" ++ "cell-warn" ++ "\""
                ++ (" title=\"" ++ escapeHtml (.str (titleOf r v i)) ++ "\"")
                ++ ">" ++ escapeHtml v ++ "</td>")
    ∧ (∀ r2 v2 i2, r = r2 → v = v2 → i = i2 →
        rowClassOf r = rowClassOf r2 ∧ renderCell r v i = renderCell r2 v2 i2) := by
  refine ⟨?_, ?_, ?_, ?_, ?_⟩
  · intro hall
    have hrc : rowClassOf r = "row-ok" := by simp [rowClassOf, hall]
    unfold renderRow
    rw [hrc]
    apply strContains_append_left
    apply strContains_append_left
    apply strContains_append_left
    apply strContains_append_left
    apply strContains_append_left
    apply strContains_append_left
    decide
  · intro hall
    have hrc : rowClassOf r = "row-warn" := by simp [rowClassOf, hall]
    unfold renderRow
    rw [hrc]
    apply strContains_append_left
    apply strContains_append_left
    apply strContains_append_left
    apply strContains_append_left
    apply strContains_append_left
    apply strContains_append_left
    decide
  · intro hok
    have h1 : cellClassOf r i = "cell-ok" := by simp [cellClassOf, hok]
    have h2 : titleOf r v i = "" := by simp [titleOf, hok]
    have h3 : titleAttrOf r v i = "" := by simp [titleAttrOf, h2]
    unfold renderCell
    rw [h1, h3]
    congr 1
  · intro hok
    refine ⟨by simp [cellClassOf, hok], by simp [titleOf, hok], ?_⟩
    have h1 : cellClassOf r i = "cell-warn" := by simp [cellClassOf, hok]
    have h3 : titleAttrOf r v i
        = " title=\"" ++ escapeHtml (.str (titleOf r v i)) ++ "\"" := by
      simp [titleAttrOf, title_ne_empty r v i hok]
    unfold renderCell
    rw [h1, h3]
  · intro r2 v2 i2 h1 h2 h3
    subst h1; subst h2; subst h3
    exact ⟨rfl, rfl⟩

/-- Witness for `row_cell_classification` at concrete inputs. -/
theorem row_cell_classification_w :
    strContains (renderRow rowOkEx) "<tr class=\"row-ok\">" = true
    ∧ strContains (renderRow rowNullTax) "<tr class=\"row-warn\">" = true
    ∧ renderCell rowOkEx (JVal.str "x") 0
        = "<td class=\"cell-ok\">" ++ escapeHtml (JVal.str "x") ++ "</td>"
    ∧ cellClassOf rowNullTax 0 = "cell-warn" := by
  have h1 := row_cell_classification rowOkEx (JVal.str "x") 0
  have h2 := row_cell_classification rowNullTax (JVal.str "x") 0
  exact ⟨h1.1 rfl, h2.2.1 (by decide), h1.2.2.1 (by decide), (h2.2.2.2.1 (by decide)).1⟩


/-! ### Claims about the mismatch summary cell -/

/-- An example mismatch entry with non-empty values. -/
def mEx : MismatchData :=
  { column_label := .str "A", esg_value := .str "x", tax_value := .str "y" }

/-- An example mismatch entry whose ESG value is the empty string. -/
def mEmptyEx : MismatchData :=
  { column_label := .str "A", esg_value := .str "", tax_value := .str "y" }

/-- Claim C7: the mismatch summary cell is the single placeholder dash
when `mismatches` is absent or empty; otherwise it is one formatted entry
per mismatch — escaped column label, the ESG value or the `(ว่าง)`
("(empty)") marker when the value is empty, and the tax value or the
marker — joined with the `" · "` separator in exactly the order the
service supplied them. -/
theorem mismatch_cell_rendering (ms : List MismatchData) (m : MismatchData) :
    mismatchCellOf none = "—"
    ∧ mismatchCellOf (some []) = "—"
    ∧ (ms ≠ [] →
        mismatchCellOf (some ms) = String.intercalate " · " (ms.map renderMismatch))
    ∧ (ms.map renderMismatch).length = ms.length
    ∧ (∀ j : Nat, (ms.map renderMismatch)[j]? = (ms[j]?).map renderMismatch)
    ∧ renderMismatch m
        = "<span class=\"mismatch-label\">" ++ escapeHtml m.column_label
            ++ "</span>: ESG=<strong>" ++ escapeHtml (jsOr m.esg_value (.str "(ว่าง)"))
            ++ "</strong> ภาษี=<strong>" ++ escapeHtml (jsOr m.tax_value (.str "(ว่าง)"))
            ++ "</strong>"
    ∧ (m.esg_value = JVal.str "" → jsOr m.esg_value (.str "(ว่าง)") = .str "(ว่าง)")
    ∧ (∀ s, s ≠ "" → m.tax_value = JVal.str s → jsOr m.tax_value (.str "(ว่าง)") = .str s) := by
  refine ⟨rfl, rfl, ?_, by simp, ?_, rfl, ?_, ?_⟩
  · intro h
    simp [mismatchCellOf, h]
  · intro j
    simp
  · intro h
    simp [jsOr, jsTruthy, h]
  · intro s hs hm
    simp [jsOr, jsTruthy, hm, hs]

/-- Witness for `mismatch_cell_rendering` at concrete inputs. -/
theorem mismatch_cell_rendering_w :
    mismatchCellOf (some [mEx]) = String.intercalate " · " ([mEx].map renderMismatch)
    ∧ jsOr mEmptyEx.esg_value (JVal.str "(ว่าง)") = JVal.str "(ว่าง)"
    ∧ jsOr mEmptyEx.tax_value (JVal.str "(ว่าง)") = JVal.str "y" := by
  have h := mismatch_cell_rendering [mEx] mEmptyEx
  exact ⟨h.2.2.1 (by decide), h.2.2.2.2.2.2.1 rfl,
    h.2.2.2.2.2.2.2 "y" (by decide) rfl⟩

/-! ### Claims about the cell/value alignment of a row -/

/-- A row result with every field absent except the ordinal. -/
def rowNoValues : RowResultData :=
  { row := .num 4, all_match := none, values_esg := none, values_tax := none,
    cells_match := none, mismatches := none }

/-- Claim C10: a row renders exactly one data cell per `values_esg` entry
(zero when `values_esg` is missing); entries of `values_tax` or
`cells_match` beyond that length never influence the rendered row; and
with `cells_match` absent every data cell is classed `cell-warn`, never
`cell-ok`. -/
theorem cells_follow_values_esg (r : RowResultData) (vt : List JVal) (cm : List Bool) :
    (cellsOf r).length = (r.values_esg.getD []).length
    ∧ (r.values_esg = none → cellsOf r = [])
    ∧ (∀ (row : JVal) (am : Option Bool) (ve : Option (List JVal))
          (mm : Option (List MismatchData)),
        renderRow ⟨row, am, ve, some vt, some cm, mm⟩
          = renderRow ⟨row, am, ve, some (vt.take (ve.getD []).length),
              some (cm.take (ve.getD []).length), mm⟩)
    ∧ (r.cells_match = none → ∀ j, cellClassOf r j = "cell-warn") := by
  refine ⟨by simp [cellsOf], ?_, ?_, ?_⟩
  · intro h
    simp [cellsOf, h]
  · intro row am ve mm
    have hcells : cellsOf ⟨row, am, ve, some vt, some cm, mm⟩
        = cellsOf ⟨row, am, ve, some (vt.take (ve.getD []).length),
            some (cm.take (ve.getD []).length), mm⟩ := by
      unfold cellsOf
      apply List.map_congr_left
      refine List.forall_mem_enum.mpr ?_
      intro i hi
      simp only [renderCell, cellClassOf, titleAttrOf, titleOf, tvOf, okOf]
      simp only [getD_take_of_lt cm false hi, getD_take_of_lt vt JVal.undef hi]
    unfold renderRow
    rw [hcells]
    rfl
  · intro h j
    simp [cellClassOf, okOf, h]

/-- Witness for `cells_follow_values_esg` at concrete inputs. -/
theorem cells_follow_values_esg_w :
    (cellsOf rowOkEx).length = 1
    ∧ cellsOf rowNoValues = []
    ∧ renderRow ⟨.num 1, some true, some [.str "x"],
          some [.str "x", .str "extra-tax"], some [true, false], some []⟩
        = renderRow ⟨.num 1, some true, some [.str "x"],
            some [.str "x"], some [true], some []⟩
    ∧ cellClassOf rowNoTax 0 = "cell-warn" := by
  have h1 := cells_follow_values_esg rowOkEx [JVal.str "x", JVal.str "extra-tax"]
    [true, false]
  have h2 := cells_follow_values_esg rowNoValues [] []
  have h3 := cells_follow_values_esg rowNoTax [] []
  exact ⟨h1.1, h2.2.1 rfl,
    h1.2.2.1 (.num 1) (some true) (some [.str "x"]) (some []), h3.2.2.2 rfl 0⟩

/-! ### Claims about escaping of inserted values -/

/-- A success response whose row ordinal carries markup. -/
def respInjection : RespData :=
  { detail := .undef, column_labels := some [.str "A"], match_key_label := .str "ID",
    summary := some smEx,
    results := some [{ rowOkEx with row := .str "<b>x</b>" }] }

/-- Claim C3 (counterexample): the row ordinal `r.row` is interpolated
into the body markup without `escapeHtml`, so the service-supplied
ordinal `"<b>x</b>"` appears verbatim as structural markup in the
rendered body, and nowhere in escaped form. -/
theorem row_ordinal_unescaped :
    strContains (callMatch priorState (.response true respInjection)).bodyHtml
      "<b>x</b>" = true
    ∧ strContains (callMatch priorState (.response true respInjection)).bodyHtml
      "&lt;b&gt;" = false :=
  ⟨by decide, by decide⟩

lemma titleAttr_count_angle (r : RowResultData) (v : JVal) (i : Nat) :
    countChar '<' (titleAttrOf r v i) = 0 ∧ countChar '>' (titleAttrOf r v i) = 0 := by
  unfold titleAttrOf
  split_ifs with h
  · constructor
    · rw [countChar_append, countChar_append, escapeHtml_count_lt]
      decide
    · rw [countChar_append, countChar_append, escapeHtml_count_gt]
      decide
  · exact ⟨by decide, by decide⟩

/-- Claim C3 (amended): column labels, cell values, tooltip text and
mismatch entries pass through `escapeHtml` before insertion, whose output
contains no raw `<` or `>`, so those channels can never alter the markup
structure — the number of angle brackets in a rendered cell, header label
cell or mismatch entry is independent of the inserted value; summary
counts and row ordinals, by contrast, are interpolated without
escaping. -/
theorem escaped_channels_no_markup (r : RowResultData) (v : JVal) (i : Nat)
    (m m2 : MismatchData) :
    ('<' ∉ (escapeHtml v).data ∧ '>' ∉ (escapeHtml v).data)
    ∧ countChar '<' (renderCell r v i) = countChar '<' (renderCell r (.str "") i)
    ∧ countChar '>' (renderCell r v i) = countChar '>' (renderCell r (.str "") i)
    ∧ countChar '<' (renderThead (some [v]))
        = countChar '<' (renderThead (some [JVal.str ""]))
    ∧ countChar '<' (renderMismatch m) = countChar '<' (renderMismatch m2) := by
  refine ⟨⟨(escText_no_angle _).1, (escText_no_angle _).2⟩, ?_, ?_, ?_, ?_⟩
  · simp [renderCell, countChar_append, escapeHtml_count_lt,
      fun v2 => (titleAttr_count_angle r v2 i).1]
  · simp [renderCell, countChar_append, escapeHtml_count_gt,
      fun v2 => (titleAttr_count_angle r v2 i).2]
  · simp [renderThead, String.join, countChar_append, escapeHtml_count_lt]
  · simp [renderMismatch, countChar_append, escapeHtml_count_lt]
